import Mathlib

/-
Verification of the per-request connection lifecycle controller in
src/server/app/contrib/asyncpg/config.py.

The embedding models pools and connections as opaque numeric handles and
records every pool / connection operation the Python code performs in an
ordered trace.  Python exceptions are modelled by an explicit error type;
a handler result carries the trace of operations actually performed, the
updated scope state, and the exception (if any) that propagates.
-/

namespace Sqlstack

/-- An operation performed against a pool or a leased connection.
acquire / release / close are pool operations; commit / rollback are
connection operations. -/
inductive PoolOp : Type
  | acquire (conn : Nat)
  | release (conn : Nat)
  | close (pool : Nat)
  | commit (conn : Nat)
  | rollback (conn : Nat)
deriving DecidableEq, Repr

/-- Python exceptions that can propagate out of the modelled code. -/
inductive PyErr : Type
  | typeError
  | attributeError
  | keyError
  | improperlyConfiguredException
  | commitFailure
  | rollbackFailure
deriving DecidableEq, Repr

/-- ASGI messages observed by the before-send handlers.  Only
http.response.start carries a status code. -/
inductive Message : Type
  | httpResponseStart (status : Int)
  | httpResponseBody
  | httpDisconnect
  | websocketDisconnect
  | websocketClose
deriving DecidableEq, Repr

/-- The value of message\x5b"type"\x5d for each message variant (the litestar
constants HTTP_RESPONSE_START, HTTP_DISCONNECT, WEBSOCKET_DISCONNECT,
WEBSOCKET_CLOSE and the non-terminus http.response.body event). -/
def messageType : Message → String
  | Message.httpResponseStart _ => "http.response.start"
  | Message.httpResponseBody => "http.response.body"
  | Message.httpDisconnect => "http.disconnect"
  | Message.websocketDisconnect => "websocket.disconnect"
  | Message.websocketClose => "websocket.close"

/-- SESSION_TERMINUS_ASGI_EVENTS from the source (line 31). -/
def SESSION_TERMINUS_ASGI_EVENTS : List String :=
  ["http.response.start", "http.disconnect", "websocket.disconnect", "websocket.close"]

/-- The litestar scope state entries used by this file: the connection
stored under SESSION_SCOPE_KEY and the pool stored under POOL_SCOPE_KEY;
each is absent (none) or holds a handle. -/
structure ScopeState : Type where
  sessionEntry : Option Nat
  poolEntry : Option Nat
deriving DecidableEq, Repr

/-- Fault injection for the backend round-trips: whether commit() or
rollback() raises when called. -/
structure ConnBehavior : Type where
  commitRaises : Bool
  rollbackRaises : Bool
deriving DecidableEq, Repr

/-- Result of running a before-send handler: the operations performed in
order, the scope state afterwards, and the exception that propagates out
of the handler (none when it returns normally). -/
structure HandlerResult : Type where
  ops : List PoolOp
  scope : ScopeState
  error : Option PyErr
deriving DecidableEq, Repr

/-- default_before_send_handler (source lines 43-59): if both the pool and
the session are present in scope and the message type is a terminus event,
await pool.release(session) and delete the SESSION_SCOPE_KEY entry; the
POOL_SCOPE_KEY entry is not deleted.  Otherwise do nothing. -/
def default_before_send_handler (msg : Message) (scope : ScopeState) : HandlerResult :=
  match scope.poolEntry, scope.sessionEntry with
  | some _, some conn =>
      if SESSION_TERMINUS_ASGI_EVENTS.contains (messageType msg) then
        { ops := [PoolOp.release conn]
          scope := { scope with sessionEntry := none }
          error := none }
      else
        { ops := [], scope := scope, error := none }
  | _, _ => { ops := [], scope := scope, error := none }

/-- The argument list passed to asyncio.wait_for at the release call site
of autocommit_before_send_handler (source line 84):
asyncio.wait_for(pool.release(session)) supplies no timeout argument at
all.  none models the absent argument; some t would model
wait_for(fut, t), with t = none the unbounded wait timeout=None and
t = some d a bounded wait of d. -/
def autocommit_release_timeout_arg : Option (Option Nat) := none

/-- Model of asyncio.wait_for applied to a pool.release coroutine: the
timeout parameter of wait_for is required, so a call that omits it raises
TypeError and the wrapped release coroutine is never awaited (it performs
no pool operation); a call that supplies it awaits the release. -/
def asyncio_wait_for (timeoutArg : Option (Option Nat)) (conn : Nat) :
    Except PyErr (List PoolOp) :=
  match timeoutArg with
  | none => Except.error PyErr.typeError
  | some _ => Except.ok [PoolOp.release conn]

/-- autocommit_before_send_handler (source lines 62-85).  The try block
commits when the session is present, the message is http.response.start
and 200 <= status < 300, and rolls back when the status is outside that
range; commit/rollback may raise (fault injection).  The finally block
runs regardless: when the session is present and the message type is a
terminus event it evaluates pool.release(session) (AttributeError when the
pool entry is None) and passes the coroutine to asyncio.wait_for without
the required timeout argument; only if that call returned normally would
the SESSION_SCOPE_KEY entry be deleted.  An exception raised in the
finally block replaces one raised in the try block. -/
def autocommit_before_send_handler (beh : ConnBehavior) (msg : Message)
    (scope : ScopeState) : HandlerResult :=
  let tryStep : List PoolOp × Option PyErr :=
    match scope.sessionEntry, msg with
    | some conn, Message.httpResponseStart status =>
        if 200 ≤ status ∧ status < 300 then
          ([PoolOp.commit conn],
            if beh.commitRaises then some PyErr.commitFailure else none)
        else
          ([PoolOp.rollback conn],
            if beh.rollbackRaises then some PyErr.rollbackFailure else none)
    | _, _ => ([], none)
  let finStep : List PoolOp × ScopeState × Option PyErr :=
    match scope.sessionEntry with
    | some conn =>
        if SESSION_TERMINUS_ASGI_EVENTS.contains (messageType msg) then
          match scope.poolEntry with
          | none => ([], scope, some PyErr.attributeError)
          | some _ =>
              match asyncio_wait_for autocommit_release_timeout_arg conn with
              | Except.error e => ([], scope, some e)
              | Except.ok released =>
                  (released, { scope with sessionEntry := none }, none)
        else ([], scope, none)
    | none => ([], scope, none)
  { ops := tryStep.1 ++ finStep.1
    scope := finStep.2.1
    error :=
      match finStep.2.2 with
      | some e => some e
      | none => tryStep.2 }

/-- PoolConfig (source lines 100-137): the configuration record handed to
asyncpg.create_pool.  Only the dsn matters to the lifecycle logic; the
remaining fields are passed through opaquely. -/
structure PoolConfig : Type where
  dsn : String
deriving DecidableEq, Repr

/-- AsyncpgConfig (source lines 140-171), restricted to the fields the
lifecycle logic reads: the optional PoolConfig, the optional pre-built
pool instance, and the application-state key under which the pool is
stored. -/
structure AsyncpgConfig : Type where
  pool_config : Option PoolConfig
  pool_instance : Option Nat
  pool_app_state_key : String
deriving DecidableEq, Repr

/-- The litestar application State: a mapping from string keys to stored
values.  A stored value is itself an Option Nat because Python state can
hold None under a key; the outer layer distinguishes an absent key. -/
def AppState : Type := List (String × Option Nat)

/-- litestar State.get(key): returns the stored value, or None when the
key is absent (MutableMapping.get with default None). -/
def stateGet (st : AppState) (key : String) : Option Nat :=
  Option.join (List.lookup key st)

/-- litestar State.pop(key) with no default (MutableMapping.pop): raises
KeyError when the key is absent, otherwise removes the entry and returns
the stored value. -/
def statePop (st : AppState) (key : String) : Except PyErr (Option Nat × AppState) :=
  match List.lookup key st with
  | none => Except.error PyErr.keyError
  | some v => Except.ok (v, List.eraseP (fun kv => kv.1 == key) st)

/-- AsyncpgConfig.provide_pool (source lines 239-248): a plain
state.get(pool_app_state_key) wrapped in a cast; it never raises and
returns None when the pool was never stored. -/
def provide_pool (cfg : AsyncpgConfig) (st : AppState) : Except PyErr (Option Nat) :=
  Except.ok (stateGet st cfg.pool_app_state_key)

/-- AsyncpgConfig.provide_connection (source lines 250-267): read the
SESSION_SCOPE_KEY entry of the scope; if a connection is present return it
unchanged.  Otherwise look the pool up via provide_pool and call
pool.acquire() (AttributeError when provide_pool returned None), store the
acquired connection under SESSION_SCOPE_KEY only — POOL_SCOPE_KEY is
never written — and return it.  acq models pool.acquire: the connection
handle the pool hands out. -/
def provide_connection (acq : Nat → Nat) (cfg : AsyncpgConfig) (st : AppState)
    (scope : ScopeState) : Except PyErr (Nat × ScopeState × List PoolOp) :=
  match scope.sessionEntry with
  | some conn => Except.ok (conn, scope, [])
  | none =>
      match provide_pool cfg st with
      | Except.error e => Except.error e
      | Except.ok none => Except.error PyErr.attributeError
      | Except.ok (some pool) =>
          let conn := acq pool
          Except.ok (conn, { scope with sessionEntry := some conn },
            [PoolOp.acquire conn])

/-- AsyncpgConfig.on_shutdown (source lines 194-205): pop the pool from
the application state (KeyError when the key was never set, since
State.pop is called without a default) and, when the popped value is not
None, await pool.close().  Returns the state after the pop and the pool
operations performed. -/
def on_shutdown (cfg : AsyncpgConfig) (st : AppState) :
    Except PyErr (AppState × List PoolOp) :=
  match statePop st cfg.pool_app_state_key with
  | Except.error e => Except.error e
  | Except.ok (popped, st') =>
      match popped with
      | some pool => Except.ok (st', [PoolOp.close pool])
      | none => Except.ok (st', [])

/-- AsyncpgConfig.create_pool (source lines 218-237): return the cached
pool_instance when present; otherwise require a pool_config
(ImproperlyConfiguredException when both are absent), build a pool with
asyncpg.create_pool — modelled by mk, which may yield nothing — store it
in pool_instance and return it, raising ImproperlyConfiguredException
when construction yielded nothing.  The result carries the pool, the
updated config and the number of asyncpg.create_pool invocations made by
this call. -/
def create_pool (mk : PoolConfig → Option Nat) (cfg : AsyncpgConfig) :
    Except PyErr (Nat × AsyncpgConfig × Nat) :=
  match cfg.pool_instance with
  | some p => Except.ok (p, cfg, 0)
  | none =>
      match cfg.pool_config with
      | none => Except.error PyErr.improperlyConfiguredException
      | some pc =>
          match mk pc with
          | none => Except.error PyErr.improperlyConfiguredException
          | some p => Except.ok (p, { cfg with pool_instance := some p }, 1)

/-- Whether a message type belongs to SESSION_TERMINUS_ASGI_EVENTS. -/
def isTerminus (msg : Message) : Bool :=
  SESSION_TERMINUS_ASGI_EVENTS.contains (messageType msg)

/-- Number of pool.release operations in a trace. -/
def releaseCount (ops : List PoolOp) : Nat :=
  List.countP
    (fun op => match op with | PoolOp.release _ => true | _ => false) ops

/-- Operations addressed to the pool (acquire / release / close), as
opposed to connection operations (commit / rollback). -/
def isPoolOperation : PoolOp → Bool
  | PoolOp.acquire _ => true
  | PoolOp.release _ => true
  | PoolOp.close _ => true
  | PoolOp.commit _ => false
  | PoolOp.rollback _ => false

/-- Whether an Except value returned normally (no exception propagated). -/
def raisesNothing {α : Type} : Except PyErr α → Bool
  | Except.ok _ => true
  | Except.error _ => false

lemma autocommit_scope_unchanged (beh : ConnBehavior) (msg : Message)
    (scope : ScopeState) :
    (autocommit_before_send_handler beh msg scope).scope = scope := by
  obtain ⟨sess, pl⟩ := scope
  cases sess <;> cases pl <;> cases msg <;>
    simp [autocommit_before_send_handler, asyncio_wait_for,
      autocommit_release_timeout_arg, messageType, SESSION_TERMINUS_ASGI_EVENTS]

lemma autocommit_ops_not_pool (beh : ConnBehavior) (msg : Message)
    (scope : ScopeState) :
    ∀ op ∈ (autocommit_before_send_handler beh msg scope).ops,
      isPoolOperation op = false := by
  obtain ⟨sess, pl⟩ := scope
  cases sess <;> cases pl <;> cases msg <;>
    simp [autocommit_before_send_handler, asyncio_wait_for,
      autocommit_release_timeout_arg, messageType, SESSION_TERMINUS_ASGI_EVENTS,
      isPoolOperation] <;>
    split <;> simp [isPoolOperation]

lemma release_not_counted_of_not_pool (ops : List PoolOp)
    (h : ∀ op ∈ ops, isPoolOperation op = false) : releaseCount ops = 0 := by
  induction ops with
  | nil => rfl
  | cons op rest ih =>
      have hop := h op (List.mem_cons_self op rest)
      have hrest := ih fun o ho => h o (List.mem_cons_of_mem op ho)
      cases op <;> simp_all [isPoolOperation, releaseCount, List.countP_cons]

lemma default_handler_fires (msg : Message) (scope : ScopeState) (p c : Nat)
    (hp : scope.poolEntry = some p) (hc : scope.sessionEntry = some c)
    (hterm : isTerminus msg = true) :
    default_before_send_handler msg scope =
      { ops := [PoolOp.release c], scope := { scope with sessionEntry := none },
        error := none } := by
  obtain ⟨sess, pl⟩ := scope
  simp only [ScopeState.poolEntry] at hp
  simp only [ScopeState.sessionEntry] at hc
  subst hp hc
  simp [default_before_send_handler, isTerminus] at hterm ⊢
  exact hterm

lemma default_handler_noop_of_no_session (msg : Message) (scope : ScopeState)
    (hc : scope.sessionEntry = none) :
    default_before_send_handler msg scope = { ops := [], scope := scope, error := none } := by
  obtain ⟨sess, pl⟩ := scope
  simp only [ScopeState.sessionEntry] at hc
  subst hc
  cases pl <;> rfl

lemma default_handler_noop_of_no_pool (msg : Message) (scope : ScopeState)
    (hp : scope.poolEntry = none) :
    default_before_send_handler msg scope = { ops := [], scope := scope, error := none } := by
  obtain ⟨sess, pl⟩ := scope
  simp only [ScopeState.poolEntry] at hp
  subst hp
  cases sess <;> rfl

/-- Claim C1: the spec states that provide_connection, for a scope with no
connection yet, acquires from the pool and stores the connection together
with a reference to the owning pool.  Evaluating provide_connection at a
concrete failing input shows the code acquires and stores the connection
under the session key but leaves the POOL_SCOPE_KEY entry of the scope
empty: the pool reference is never stored, so the release guard of
default_before_send_handler (which requires the pool entry) can never
fire. -/
theorem claim_C1_pool_reference_not_stored :
    provide_connection (fun p => p + 100) ⟨none, none, "db_pool"⟩
      [("db_pool", some 7)] ⟨none, none⟩ =
      Except.ok (107, ⟨some 107, none⟩, [PoolOp.acquire 107]) ∧
    (ScopeState.mk (some 107) none).poolEntry = none :=
  ⟨rfl, rfl⟩

/-- Claim C2 counterexample: the claim states that the plain policy clears
both scope entries on a terminus signal.  At a concrete scope holding
connection 3 and pool 1, the handler releases the connection and clears
the session entry, but the pool entry is still present afterwards. -/
theorem claim_C2_counterexample :
    default_before_send_handler Message.httpDisconnect ⟨some 3, some 1⟩ =
      { ops := [PoolOp.release 3], scope := ⟨none, some 1⟩, error := none } ∧
    (default_before_send_handler Message.httpDisconnect ⟨some 3, some 1⟩).scope.poolEntry
      = some 1 :=
  ⟨rfl, rfl⟩

/-- Claim C2 (amended): on any terminus signal with both a connection and
its pool present in scope, the plain policy releases the connection to the
pool and clears the session entry only — the pool entry remains in scope;
when no connection is present it performs no operation at all. -/
theorem claim_C2_plain_policy_release (msg : Message) (scope : ScopeState)
    (p c : Nat) (hterm : isTerminus msg = true) :
    (scope.poolEntry = some p → scope.sessionEntry = some c →
      default_before_send_handler msg scope =
        { ops := [PoolOp.release c], scope := ⟨none, some p⟩, error := none }) ∧
    (scope.sessionEntry = none →
      default_before_send_handler msg scope =
        { ops := [], scope := scope, error := none }) := by
  constructor
  · intro hp hc
    have h := default_handler_fires msg scope p c hp hc hterm
    obtain ⟨sess, pl⟩ := scope
    simp only [ScopeState.poolEntry] at hp
    subst hp
    exact h
  · intro hc
    exact default_handler_noop_of_no_session msg scope hc

/-- Claim C2 witness: the amended theorem applied at the concrete scope
holding connection 3 leased from pool 1 and the http.disconnect terminus
signal. -/
theorem claim_C2_plain_policy_release_witness :
    default_before_send_handler Message.httpDisconnect ⟨some 3, some 1⟩ =
      { ops := [PoolOp.release 3], scope := ⟨none, some 1⟩, error := none } :=
  (claim_C2_plain_policy_release Message.httpDisconnect ⟨some 3, some 1⟩ 1 3
    (by decide)).1 rfl rfl

lemma autocommit_ops_commit (beh : ConnBehavior) (status : Int)
    (pl : Option Nat) (c : Nat) (hr : 200 ≤ status ∧ status < 300) :
    (autocommit_before_send_handler beh (Message.httpResponseStart status)
      ⟨some c, pl⟩).ops = [PoolOp.commit c] := by
  cases pl <;>
    simp [autocommit_before_send_handler, asyncio_wait_for,
      autocommit_release_timeout_arg, messageType,
      SESSION_TERMINUS_ASGI_EVENTS, hr.1, hr.2]

lemma autocommit_ops_rollback (beh : ConnBehavior) (status : Int)
    (pl : Option Nat) (c : Nat) (hn : ¬ (200 ≤ status ∧ status < 300)) :
    (autocommit_before_send_handler beh (Message.httpResponseStart status)
      ⟨some c, pl⟩).ops = [PoolOp.rollback c] := by
  cases pl <;>
    simp only [autocommit_before_send_handler, asyncio_wait_for,
      autocommit_release_timeout_arg, messageType,
      SESSION_TERMINUS_ASGI_EVENTS, if_neg hn] <;>
    simp

/-- Claim C3: for a scope holding a connection, the autocommit policy on
http.response.start performs commit() as its first operation when the
status lies in the range 200 to 299 and rollback() as its first operation
otherwise, and any release operation of the same signal can only occur at
a strictly later position of the trace. -/
theorem claim_C3_autocommit_commit_or_rollback (beh : ConnBehavior)
    (status : Int) (scope : ScopeState) (c : Nat)
    (hsess : scope.sessionEntry = some c) :
    (200 ≤ status ∧ status < 300 →
      (autocommit_before_send_handler beh (Message.httpResponseStart status) scope).ops.head?
        = some (PoolOp.commit c)) ∧
    (¬ (200 ≤ status ∧ status < 300) →
      (autocommit_before_send_handler beh (Message.httpResponseStart status) scope).ops.head?
        = some (PoolOp.rollback c)) ∧
    (∀ i c', (autocommit_before_send_handler beh
        (Message.httpResponseStart status) scope).ops[i]?
          = some (PoolOp.release c') → 0 < i) := by
  obtain ⟨sess, pl⟩ := scope
  simp only [ScopeState.sessionEntry] at hsess
  subst hsess
  refine ⟨?_, ?_, ?_⟩
  · intro hr
    rw [autocommit_ops_commit beh status pl c hr]
    rfl
  · intro hn
    rw [autocommit_ops_rollback beh status pl c hn]
    rfl
  · intro i c' hi
    by_cases hr : 200 ≤ status ∧ status < 300
    · rw [autocommit_ops_commit beh status pl c hr] at hi
      cases i <;> simp at hi
    · rw [autocommit_ops_rollback beh status pl c hr] at hi
      cases i <;> simp at hi

/-- Claim C3 witness: the theorem applied with status 204 at the scope
holding connection 5 leased from pool 1: the first operation of the trace
is commit(). -/
theorem claim_C3_autocommit_commit_or_rollback_witness :
    (autocommit_before_send_handler ⟨false, false⟩ (Message.httpResponseStart 204)
      ⟨some 5, some 1⟩).ops.head? = some (PoolOp.commit 5) :=
  (claim_C3_autocommit_commit_or_rollback ⟨false, false⟩ 204 ⟨some 5, some 1⟩ 5
    rfl).1 (by decide)

/-- Claim C4: the spec requires that when commit() raises during
autocommit handling of a terminus signal the release still runs exactly
once.  Evaluating the handler at the failing input — scope holding
connection 5 leased from pool 1, http.response.start status 204, a commit
that raises — shows the trace contains the failed commit and no release at
all: the finally block's wait_for call (missing its required timeout
argument) raises TypeError before the release coroutine is awaited, the
session entry is left in scope, and TypeError replaces the commit
failure. -/
theorem claim_C4_release_skipped_when_commit_raises :
    autocommit_before_send_handler ⟨true, false⟩ (Message.httpResponseStart 204)
      ⟨some 5, some 1⟩ =
      { ops := [PoolOp.commit 5], scope := ⟨some 5, some 1⟩,
        error := some PyErr.typeError } ∧
    releaseCount (autocommit_before_send_handler ⟨true, false⟩
      (Message.httpResponseStart 204) ⟨some 5, some 1⟩).ops = 0 :=
  ⟨by decide, by decide⟩

/-- Claim C5: the spec requires the autocommit release to be wrapped in a
cancellable timeout with a bounded wait duration.  The call site supplies
no timeout argument at all (autocommit_release_timeout_arg = none), so on
a terminus signal with a leased connection the handler raises TypeError
and performs no release — there is no bounded wait. -/
theorem claim_C5_release_wait_unbounded :
    autocommit_release_timeout_arg = none ∧
    autocommit_before_send_handler ⟨false, false⟩ Message.httpDisconnect
      ⟨some 5, some 1⟩ =
      { ops := [], scope := ⟨some 5, some 1⟩, error := some PyErr.typeError } :=
  ⟨rfl, by decide⟩

/-- Claim C6 counterexample: the claim states that provide_pool fails with
a ConfigurationError when the pool was never created.  On an application
state with no pool stored, provide_pool returns normally with None: it
raises nothing. -/
theorem claim_C6_counterexample :
    provide_pool ⟨none, none, "db_pool"⟩ [] = Except.ok none ∧
    raisesNothing (provide_pool ⟨none, none, "db_pool"⟩ []) = true :=
  ⟨rfl, rfl⟩

/-- Claim C6 (amended): provide_pool is a plain state lookup; when the
pool was never stored under the configured key it returns None without
raising any exception. -/
theorem claim_C6_lookup_returns_none (cfg : AsyncpgConfig) (st : AppState)
    (h : List.lookup cfg.pool_app_state_key st = none) :
    provide_pool cfg st = Except.ok none := by
  simp [provide_pool, stateGet, h]

/-- Claim C6 witness: the amended theorem applied to the empty application
state. -/
theorem claim_C6_lookup_returns_none_witness :
    provide_pool ⟨none, none, "db_pool"⟩ [] = Except.ok none :=
  claim_C6_lookup_returns_none ⟨none, none, "db_pool"⟩ [] rfl

/-- Claim C7: the spec states that on_shutdown is a no-op raising no
exception when no pool was ever created.  Evaluating on_shutdown at the
failing input — an application state that never had the pool key — shows
it raises KeyError: State.pop is called without a default, so the absent
key raises before the None guard (which expects pop to have returned
None) is ever reached. -/
theorem claim_C7_shutdown_raises_key_error :
    on_shutdown ⟨none, none, "db_pool"⟩ [] = Except.error PyErr.keyError :=
  rfl

/-- Claim C8: whenever provide_connection succeeds — in particular after a
first call has stored the acquired connection in the scope — calling it
again on the resulting scope without an intervening release returns the
identical connection handle and performs no pool operation at all (no
second acquire). -/
theorem claim_C8_provide_connection_idempotent (acq : Nat → Nat)
    (cfg : AsyncpgConfig) (st : AppState) (scope s1 : ScopeState)
    (c : Nat) (ops : List PoolOp)
    (h : provide_connection acq cfg st scope = Except.ok (c, s1, ops)) :
    provide_connection acq cfg st s1 = Except.ok (c, s1, []) := by
  obtain ⟨sess, pl⟩ := scope
  cases sess with
  | some conn =>
      simp only [provide_connection, Except.ok.injEq, Prod.mk.injEq] at h
      obtain ⟨hc, hs, _⟩ := h
      subst hc
      subst hs
      rfl
  | none =>
      simp only [provide_connection, provide_pool] at h
      cases hget : stateGet st cfg.pool_app_state_key with
      | none => rw [hget] at h; exact absurd h (by simp)
      | some pool =>
          rw [hget] at h
          simp only [Except.ok.injEq, Prod.mk.injEq] at h
          obtain ⟨hc, hs, _⟩ := h
          subst hc
          subst hs
          rfl

/-- Claim C8 witness: the theorem applied to the scope produced by a first
acquire of connection 107 from pool 7: the second call returns the same
handle 107 and an empty operation trace. -/
theorem claim_C8_provide_connection_idempotent_witness :
    provide_connection (fun p => p + 100) ⟨none, none, "db_pool"⟩
      [("db_pool", some 7)] ⟨some 107, none⟩ =
      Except.ok (107, ⟨some 107, none⟩, []) :=
  claim_C8_provide_connection_idempotent (fun p => p + 100)
    ⟨none, none, "db_pool"⟩ [("db_pool", some 7)] ⟨none, none⟩
    ⟨some 107, none⟩ 107 [PoolOp.acquire 107] rfl

/-- Claim C9: for both lifecycle policies, after a terminus signal has
been processed, processing a second terminus signal on the resulting
scope performs no pool operation — the plain policy's second run has an
empty trace, the autocommit policy's second run contains no pool-directed
operation — and across the two signals the pool's release is invoked at
most once. -/
theorem claim_C9_release_at_most_once (m1 m2 : Message) (scope : ScopeState)
    (beh : ConnBehavior) (h1 : isTerminus m1 = true) (h2 : isTerminus m2 = true) :
    ((default_before_send_handler m2 (default_before_send_handler m1 scope).scope).ops
        = [] ∧
      releaseCount ((default_before_send_handler m1 scope).ops ++
        (default_before_send_handler m2
          (default_before_send_handler m1 scope).scope).ops) ≤ 1) ∧
    ((∀ op ∈ (autocommit_before_send_handler beh m2
        (autocommit_before_send_handler beh m1 scope).scope).ops,
        isPoolOperation op = false) ∧
      releaseCount ((autocommit_before_send_handler beh m1 scope).ops ++
        (autocommit_before_send_handler beh m2
          (autocommit_before_send_handler beh m1 scope).scope).ops) ≤ 1) := by
  constructor
  · obtain ⟨sess, pl⟩ := scope
    cases sess <;> cases pl <;> cases m1 <;> cases m2 <;>
      simp_all [default_before_send_handler, isTerminus, messageType,
        SESSION_TERMINUS_ASGI_EVENTS, releaseCount]
  · have hscope := autocommit_scope_unchanged beh m1 scope
    constructor
    · rw [hscope]
      exact autocommit_ops_not_pool beh m2 scope
    · rw [hscope]
      have hall : ∀ op ∈ (autocommit_before_send_handler beh m1 scope).ops ++
          (autocommit_before_send_handler beh m2 scope).ops,
          isPoolOperation op = false := by
        intro op hop
        rcases List.mem_append.mp hop with hm | hm
        · exact autocommit_ops_not_pool beh m1 scope op hm
        · exact autocommit_ops_not_pool beh m2 scope op hm
      rw [release_not_counted_of_not_pool _ hall]
      exact Nat.zero_le 1

/-- Claim C9 witness: the theorem applied at the scope holding connection
3 leased from pool 1, with http.disconnect followed by websocket.close:
both policies invoke release at most once across the two signals. -/
theorem claim_C9_release_at_most_once_witness :
    releaseCount ((default_before_send_handler Message.httpDisconnect
        ⟨some 3, some 1⟩).ops ++
      (default_before_send_handler Message.websocketClose
        (default_before_send_handler Message.httpDisconnect
          ⟨some 3, some 1⟩).scope).ops) ≤ 1 ∧
    releaseCount ((autocommit_before_send_handler ⟨false, false⟩
        Message.httpDisconnect ⟨some 3, some 1⟩).ops ++
      (autocommit_before_send_handler ⟨false, false⟩ Message.websocketClose
        (autocommit_before_send_handler ⟨false, false⟩ Message.httpDisconnect
          ⟨some 3, some 1⟩).scope).ops) ≤ 1 :=
  ⟨(claim_C9_release_at_most_once Message.httpDisconnect Message.websocketClose
      ⟨some 3, some 1⟩ ⟨false, false⟩ (by decide) (by decide)).1.2,
    (claim_C9_release_at_most_once Message.httpDisconnect Message.websocketClose
      ⟨some 3, some 1⟩ ⟨false, false⟩ (by decide) (by decide)).2.2⟩

/-- Claim C10: create_pool caches its result.  Whenever a call succeeds —
either because pool_instance was already supplied or because the pool was
just built and stored — a subsequent call on the resulting configuration
returns the very same pool and performs zero invocations of the
underlying asyncpg.create_pool constructor. -/
theorem claim_C10_create_pool_cached (mk : PoolConfig → Option Nat)
    (cfg cfg' : AsyncpgConfig) (p k : Nat)
    (h : create_pool mk cfg = Except.ok (p, cfg', k)) :
    create_pool mk cfg' = Except.ok (p, cfg', 0) := by
  obtain ⟨pc, pi, key⟩ := cfg
  cases pi with
  | some q =>
      simp only [create_pool, Except.ok.injEq, Prod.mk.injEq] at h
      obtain ⟨hp, hcfg, _⟩ := h
      subst hp
      subst hcfg
      rfl
  | none =>
      cases pc with
      | none => exact absurd h (by simp [create_pool])
      | some pcv =>
          simp only [create_pool] at h
          cases hmk : mk pcv with
          | none =>
              rw [hmk] at h
              exact absurd h (by simp)
          | some q =>
              rw [hmk] at h
              simp only [Except.ok.injEq, Prod.mk.injEq] at h
              obtain ⟨hp, hcfg, _⟩ := h
              subst hp
              subst hcfg
              rfl

/-- Claim C10 witness: a first call on a configuration with only a
pool_config builds pool 42 once; the theorem then gives that a second
call on the updated configuration returns pool 42 with zero constructor
invocations. -/
theorem claim_C10_create_pool_cached_witness :
    create_pool (fun _ => some 42) ⟨some ⟨"dsn"⟩, some 42, "db_pool"⟩ =
      Except.ok (42, ⟨some ⟨"dsn"⟩, some 42, "db_pool"⟩, 0) :=
  claim_C10_create_pool_cached (fun _ => some 42) ⟨some ⟨"dsn"⟩, none, "db_pool"⟩
    ⟨some ⟨"dsn"⟩, some 42, "db_pool"⟩ 42 1 rfl

end Sqlstack
